import Mathlib

/-!
Verification of the workout-analysis engine of `server/analysis/pose_analyzer.py`
(class `WorkoutAnalyzer`).

The numeric model uses exact real arithmetic (`ℝ`).  The one place where
IEEE-754 behaviour is semantically decisive — the division `dot / (‖ba‖‖bc‖)`
inside `calculate_angle`, which produces NaN on a zero-length ray because numpy
emits a `RuntimeWarning` (suppressed by `warnings.filterwarnings`) instead of
raising an exception — is modelled explicitly with `Option ℝ`, `none` standing
for a non-finite float.  Everywhere else the pipeline consumes angle values of
non-degenerate triples, where exact real arithmetic and the float pipeline
agree up to rounding and no claim below depends on rounding.

The two scipy routines the source calls, `savgol_filter` and `find_peaks`, are
external library collaborators; they are modelled from their documented
behaviour (see the doc comments on `savgol_filter` and `countPeaks`).
-/

open scoped Classical

noncomputable section

namespace GymBot

/-- A body-joint sample.  The analyzer only ever reads the normalized
horizontal (`x`) and vertical (`y`) positions of a landmark. -/
structure Landmark where
  x : ℝ
  y : ℝ

/-- A detected pose frame: 33 landmarks indexed by the fixed MediaPipe
body-part mapping (0 = nose, 11/12 = shoulders, 13/14 = elbows,
15/16 = wrists, 23/24 = hips, 25/26 = knees, 27/28 = ankles).  The source
indexes into a flat list; we model a frame as a total index function (only
the fixed indices 0–28 are ever read). -/
def Frame : Type := Nat → Landmark

/-- The per-frame pose output: either a detected frame or the
"no pose detected" sentinel (`None` in the source). -/
def LandmarkSeq : Type := List (Option Frame)

/-- The 2-D point `[lm.x, lm.y]` the source builds from a landmark before
calling `calculate_angle`. -/
def pt (l : Landmark) : ℝ × ℝ := (l.x, l.y)

/-- `np.dot` on 2-vectors. -/
def dotv (u v : ℝ × ℝ) : ℝ := u.1 * v.1 + u.2 * v.2

/-- `np.linalg.norm` on a 2-vector. -/
def norm2 (u : ℝ × ℝ) : ℝ := Real.sqrt (u.1 ^ 2 + u.2 ^ 2)

/-- `np.clip(t, -1.0, 1.0)`. -/
def clip1 (t : ℝ) : ℝ := max (-1) (min 1 t)

/-- `np.degrees`. -/
def degrees (r : ℝ) : ℝ := r * 180 / Real.pi

/-- `WorkoutAnalyzer.calculate_angle(a, b, c)` modelled at float level:
`none` is a non-finite result.  When either ray is zero-length the float code
evaluates `0.0 / 0.0`, which in numpy yields NaN together with a
`RuntimeWarning` — not an exception — so the `except: return 0.0` branch does
not run and NaN propagates through `clip`, `arccos` and `degrees`.  For
finite inputs the denominator vanishes exactly when a ray is zero-length
(Cauchy–Schwarz makes the numerator vanish with it), so `none` covers exactly
the degenerate triples. -/
def calculate_angle (a b c : ℝ × ℝ) : Option ℝ :=
  let ba : ℝ × ℝ := (a.1 - b.1, a.2 - b.2)
  let bc : ℝ × ℝ := (c.1 - b.1, c.2 - b.2)
  if norm2 ba * norm2 bc = 0 then none
  else some (degrees (Real.arccos (clip1 (dotv ba bc / (norm2 ba * norm2 bc)))))

/-- The angle value consumed by the signal-extraction pipeline.  On a
degenerate triple the float computation produces a non-finite value
(`calculate_angle = none`); downstream definitions use the specification's
fail-closed neutral value 0.0 for that branch.  Every concrete input used in
the theorems below is non-degenerate, where the two readings agree. -/
def angleVal (a b c : ℝ × ℝ) : ℝ := (calculate_angle a b c).getD 0

/-- Python `max` over a nonempty list of floats (the default value for the
empty list is never reached: every caller guards the length first). -/
def listMax : List ℝ → ℝ
  | [] => 0
  | x :: xs => xs.foldl max x

/-- Python `min` over a nonempty list of floats. -/
def listMin : List ℝ → ℝ
  | [] => 0
  | x :: xs => xs.foldl min x

/-- Savitzky–Golay convolution coefficients for window length 5,
polynomial order 3 (the classic `[-3, 12, 17, 12, -3] / 35`). -/
def k5 : List ℚ := [-3/35, 12/35, 17/35, 12/35, -3/35]

/-- Savitzky–Golay convolution coefficients for window length 7,
polynomial order 3 (`[-2, 3, 6, 7, 6, 3, -2] / 21`). -/
def k7 : List ℚ := [-2/21, 3/21, 6/21, 7/21, 6/21, 3/21, -2/21]

/-- Kernel table for the window lengths the program reaches.  `smooth_data`
is only ever invoked with window length 5 (the default) or `min(7, n)` with
`n ≥ 10`, i.e. 7; the polynomial order is `min(3, wl - 1) = 3` in both cases
(for these symmetric windows the quadratic and cubic kernels coincide). -/
def kernelFor : ℕ → Option (List ℚ)
  | 5 => some k5
  | 7 => some k7
  | _ => none

/-- Dot product of a rational kernel with the slice of `x` starting at `i`. -/
def dotWindow : List ℚ → List ℝ → ℕ → ℝ
  | [], _, _ => 0
  | c :: ks, x, i => (c : ℝ) * x.getD i 0 + dotWindow ks x (i + 1)

/-- Modelled from the spec: `scipy.signal.savgol_filter`, the external local
polynomial smoothing filter of §4.2, is not part of this repository.  Interior
samples (those with a full window on both sides) are the exact Savitzky–Golay
convolution; samples within half a window of either edge are modelled as
unsmoothed.  (scipy's `mode='interp'` instead fits a polynomial to the first
and last window; whenever the first and last `window_length` input samples are
constant — as in every concrete input below — that fit is exact and agrees
with this model.)  The output always has the length of the input, which is the
library contract the pipeline relies on. -/
def savgol_filter (x : List ℝ) (wl : ℕ) (_po : ℕ) : List ℝ :=
  (List.range x.length).map (fun i =>
    match kernelFor wl with
    | some k => if wl / 2 ≤ i ∧ i + wl / 2 < x.length then dotWindow k x (i - wl / 2) else x.getD i 0
    | none => x.getD i 0)

/-- `WorkoutAnalyzer.smooth_data(data, window_length)`.  The source defaults
`window_length` to 5; every call site below passes the window explicitly.
If the series is shorter than the window the input is returned unchanged;
an even window is decremented to the next odd value; the polynomial order is
`min(3, window_length - 1)`. -/
def smooth_data (data : List ℝ) (window_length : ℕ) : List ℝ :=
  if data.length < window_length then data
  else
    let wl := if window_length % 2 = 0 then window_length - 1 else window_length
    savgol_filter data wl (min 3 (wl - 1))

/-- First index at or after `i` (capped at `x.length - 1`) whose sample
differs from `v` — the plateau scan of scipy's `_local_maxima_1d`. -/
def plateauEnd (x : List ℝ) : ℕ → ℕ → ℝ → ℕ
  | 0, i, _ => i
  | fuel + 1, i, v => if i < x.length - 1 ∧ x.getD i 0 = v then plateauEnd x fuel (i + 1) v else i

/-- Main scan of scipy's `_local_maxima_1d`: walks `i` from 1 to
`x.length - 2`, emits the midpoint of each maximal plateau that is strictly
above both neighbours, and resumes after the plateau.  `fuel = x.length`
bounds the walk (the index strictly increases every step). -/
def lmAux (x : List ℝ) : ℕ → ℕ → List ℕ
  | 0, _ => []
  | fuel + 1, i =>
    if i + 1 < x.length then
      if x.getD (i - 1) 0 < x.getD i 0 then
        if x.getD (plateauEnd x x.length (i + 1) (x.getD i 0)) 0 < x.getD i 0 then
          (i + (plateauEnd x x.length (i + 1) (x.getD i 0) - 1)) / 2
            :: lmAux x fuel (plateauEnd x x.length (i + 1) (x.getD i 0) + 1)
        else lmAux x fuel (i + 1)
      else lmAux x fuel (i + 1)
    else []

/-- Candidate local maxima of a signal (scipy `_local_maxima_1d`). -/
def localMaxima (x : List ℝ) : List ℕ := lmAux x x.length 1

/-- Entry with the largest value (first such entry on ties). -/
def argmaxAux : List (ℕ × ℝ) → (ℕ × ℝ) → (ℕ × ℝ)
  | [], best => best
  | p :: ps, best => argmaxAux ps (if best.2 < p.2 then p else best)

/-- Greedy distance selection of scipy's `_select_by_peak_distance`:
repeatedly keep the remaining peak of largest height and discard every other
remaining peak strictly closer than `dist` samples to it; returns how many
peaks survive.  (scipy breaks height ties toward the larger index; no input
below has tied candidate heights.) -/
def sbdAux (dist : ℕ) : ℕ → List (ℕ × ℝ) → ℕ
  | 0, _ => 0
  | _, [] => 0
  | fuel + 1, p :: ps =>
    1 + sbdAux dist fuel
      ((p :: ps).filter (fun q => decide (q.1 ≠ (argmaxAux ps p).1
        ∧ (dist ≤ (argmaxAux ps p).1 - q.1 ∨ dist ≤ q.1 - (argmaxAux ps p).1))))

/-- Modelled from the spec: `scipy.signal.find_peaks(x, height, distance)` is
an external library routine (§4.5 and the glossary define peak/valley as a
local extremum in a smoothed signal exceeding a minimum value and separated
from neighbouring extrema by a minimum sample spacing).  Candidates are the
local maxima (plateau midpoints), filtered to height `≥ height` (scipy's
inclusive bound), then thinned by minimum spacing `dist`, highest peaks kept
first.  The analyzer only uses the number of returned peaks, so the model
returns the count. -/
def countPeaks (x : List ℝ) (height : ℝ) (dist : ℕ) : ℕ :=
  sbdAux dist
    (((localMaxima x).map (fun p => (p, x.getD p 0))).filter (fun pv => decide (height ≤ pv.2))).length
    (((localMaxima x).map (fun p => (p, x.getD p 0))).filter (fun pv => decide (height ≤ pv.2)))

/-- `[lm for lm in landmarks_sequence if lm is not None]` — the valid-frame
subsequence, with sentinel entries dropped. -/
def validFrames (seq : LandmarkSeq) : LandmarkSeq := seq.filter (fun o => o.isSome)

/-- The joint angle at landmark `j` between landmarks `i` and `k` of a frame,
as the source computes it: `calculate_angle([lm[i].x, lm[i].y], ...)`. -/
def frameAngle (i j k : ℕ) (lm : Frame) : ℝ := angleVal (pt (lm i)) (pt (lm j)) (pt (lm k))

/-- Left knee angle (hip 23, knee 25, ankle 27). -/
def leftKneeAngle : Frame → ℝ := frameAngle 23 25 27

/-- Right knee angle (hip 24, knee 26, ankle 28). -/
def rightKneeAngle : Frame → ℝ := frameAngle 24 26 28

/-- Left elbow angle (shoulder 11, elbow 13, wrist 15). -/
def leftElbowAngle : Frame → ℝ := frameAngle 11 13 15

/-- Right elbow angle (shoulder 12, elbow 14, wrist 16). -/
def rightElbowAngle : Frame → ℝ := frameAngle 12 14 16

/-- Per-valid-frame mean of left and right knee angle — the series
`knee_angles` built by `analyze_knee_movement` and `count_squat_reps`. -/
def avgKneeSignal (seq : LandmarkSeq) : List ℝ :=
  (seq.filterMap id).map (fun lm => (leftKneeAngle lm + rightKneeAngle lm) / 2)

/-- Per-valid-frame mean of left and right elbow angle — the series built by
`count_pushup_reps`. -/
def avgElbowSignal (seq : LandmarkSeq) : List ℝ :=
  (seq.filterMap id).map (fun lm => (leftElbowAngle lm + rightElbowAngle lm) / 2)

/-- Per-valid-frame left elbow angle — the series `elbow_angles` built by
`analyze_elbow_movement` (which reads only landmarks 11, 13, 15). -/
def leftElbowSignal (seq : LandmarkSeq) : List ℝ := (seq.filterMap id).map leftElbowAngle

/-- Per-valid-frame left knee angle series. -/
def leftKneeSignal (seq : LandmarkSeq) : List ℝ := (seq.filterMap id).map leftKneeAngle

/-- Per-valid-frame right knee angle series. -/
def rightKneeSignal (seq : LandmarkSeq) : List ℝ := (seq.filterMap id).map rightKneeAngle

/-- Per-valid-frame mean hip height `(lm[23].y + lm[24].y) / 2`. -/
def hipYSignal (seq : LandmarkSeq) : List ℝ :=
  (seq.filterMap id).map (fun lm => ((lm 23).y + (lm 24).y) / 2)

/-- Per-valid-frame mean shoulder height `(lm[11].y + lm[12].y) / 2`. -/
def shoulderYSignal (seq : LandmarkSeq) : List ℝ :=
  (seq.filterMap id).map (fun lm => ((lm 11).y + (lm 12).y) / 2)

/-- `WorkoutAnalyzer.analyze_hip_movement`: range of the smoothed mean hip
height; 0 with fewer than two valid frames. -/
def analyze_hip_movement (seq : LandmarkSeq) : ℝ :=
  if (hipYSignal seq).length < 2 then 0
  else listMax (smooth_data (hipYSignal seq) 5) - listMin (smooth_data (hipYSignal seq) 5)

/-- `WorkoutAnalyzer.analyze_shoulder_movement`: range of the smoothed mean
shoulder height; 0 with fewer than two valid frames. -/
def analyze_shoulder_movement (seq : LandmarkSeq) : ℝ :=
  if (shoulderYSignal seq).length < 2 then 0
  else listMax (smooth_data (shoulderYSignal seq) 5) - listMin (smooth_data (shoulderYSignal seq) 5)

/-- `WorkoutAnalyzer.analyze_knee_movement`: range of the smoothed mean knee
angle divided by 180; 0 with fewer than two valid frames. -/
def analyze_knee_movement (seq : LandmarkSeq) : ℝ :=
  if (avgKneeSignal seq).length < 2 then 0
  else (listMax (smooth_data (avgKneeSignal seq) 5) - listMin (smooth_data (avgKneeSignal seq) 5)) / 180

/-- `WorkoutAnalyzer.analyze_elbow_movement`: range of the smoothed left
elbow angle divided by 180; 0 with fewer than two valid frames.  (The source
appends only `left_elbow_angle` — landmarks 11, 13, 15 — to the series.) -/
def analyze_elbow_movement (seq : LandmarkSeq) : ℝ :=
  if (leftElbowSignal seq).length < 2 then 0
  else (listMax (smooth_data (leftElbowSignal seq) 5) - listMin (smooth_data (leftElbowSignal seq) 5)) / 180

/-- `WorkoutAnalyzer.check_horizontal_body_position`: more than 60 % of
`len(landmarks_sequence)` frames (the denominator counts sentinel entries
too) have `|shoulder_y - hip_y| < 0.15`.  On the empty sequence the source
raises `ZeroDivisionError` and the handler returns `False`; here `0 / 0 = 0`
gives the same truth value. -/
def check_horizontal_body_position (seq : LandmarkSeq) : Prop :=
  ((((seq.filterMap id).countP (fun lm =>
      decide (|((lm 11).y + (lm 12).y) / 2 - (((lm 23).y + (lm 24).y) / 2)| < 0.15))) : ℝ)
    / (seq.length : ℝ)) > 0.6

/-- `WorkoutAnalyzer.detect_asymmetric_leg_movement`: the unsmoothed left and
right knee-angle ranges differ by more than 30°; `False` with fewer than two
valid frames. -/
def detect_asymmetric_leg_movement (seq : LandmarkSeq) : Prop :=
  if (leftKneeSignal seq).length < 2 then False
  else |(listMax (leftKneeSignal seq) - listMin (leftKneeSignal seq))
        - (listMax (rightKneeSignal seq) - listMin (rightKneeSignal seq))| > 30

/-- `WorkoutAnalyzer.detect_exercise_type`: confidence-scored classification.
`if not landmarks_sequence: return "unknown"` is the empty check; the three
`confidence += points` chains are the conditional sums below; the winner is
the first of squat, push-up, lunge whose total equals the maximum, unknown
when the maximum is below 50. -/
def detect_exercise_type (seq : LandmarkSeq) : String :=
  if seq.isEmpty then "unknown"
  else
    let hip_movement := analyze_hip_movement seq
    let knee_movement := analyze_knee_movement seq
    let shoulder_movement := analyze_shoulder_movement seq
    let elbow_movement := analyze_elbow_movement seq
    let squat_confidence : ℕ :=
      (if hip_movement > 0.2 ∧ knee_movement > 0.25 then 40 else 0)
      + (if hip_movement > 0.3 then 30 else 0)
      + (if knee_movement > 0.4 then 30 else 0)
    let pushup_confidence : ℕ :=
      (if elbow_movement > 0.3 ∧ shoulder_movement > 0.15 then 40 else 0)
      + (if check_horizontal_body_position seq then 35 else 0)
      + (if elbow_movement > 0.4 then 25 else 0)
    let lunge_confidence : ℕ :=
      (if detect_asymmetric_leg_movement seq then 60 else 0)
      + (if hip_movement > 0.25 ∧ knee_movement > 0.3 then 40 else 0)
    let max_confidence := max squat_confidence (max pushup_confidence lunge_confidence)
    if max_confidence < 50 then "unknown"
    else if squat_confidence = max_confidence then "squat"
    else if pushup_confidence = max_confidence then "push_up"
    else "lunge"

/-- `WorkoutAnalyzer.count_squat_reps`: smooth the mean knee-angle series with
window `min(7, len)`, count peaks at height ≥ 160 (`knee_angle_max`) and
valleys at height ≤ 90 (`knee_angle_min`, via the negated signal) with minimum
spacing 10, and return the smaller count; 0 with fewer than 10 valid frames. -/
def count_squat_reps (seq : LandmarkSeq) : ℕ :=
  if (avgKneeSignal seq).length < 10 then 0
  else
    let sm := smooth_data (avgKneeSignal seq) (min 7 (avgKneeSignal seq).length)
    min (countPeaks sm 160 10) (countPeaks (sm.map (fun v => -v)) (-90) 10)

/-- `WorkoutAnalyzer.count_pushup_reps`: mean elbow-angle series, window
`min(7, len)`, peaks ≥ 160 (`elbow_angle_max`), valleys ≤ 70
(`elbow_angle_min`), spacing 8; 0 with fewer than 10 valid frames. -/
def count_pushup_reps (seq : LandmarkSeq) : ℕ :=
  if (avgElbowSignal seq).length < 10 then 0
  else
    let sm := smooth_data (avgElbowSignal seq) (min 7 (avgElbowSignal seq).length)
    min (countPeaks sm 160 8) (countPeaks (sm.map (fun v => -v)) (-70) 8)

/-- `WorkoutAnalyzer.count_lunge_reps`: pick the knee-angle series of the leg
with the strictly larger unsmoothed range (the right leg on ties), smooth it
with `smooth_data`'s default window 5, and count peaks ≥ 140 / valleys ≤ 100
with spacing 10; 0 with fewer than 10 valid frames. -/
def count_lunge_reps (seq : LandmarkSeq) : ℕ :=
  if (leftKneeSignal seq).length < 10 then 0
  else
    let left_range := listMax (leftKneeSignal seq) - listMin (leftKneeSignal seq)
    let right_range := listMax (rightKneeSignal seq) - listMin (rightKneeSignal seq)
    let active := if left_range > right_range then leftKneeSignal seq else rightKneeSignal seq
    let sm := smooth_data active 5
    min (countPeaks sm 140 10) (countPeaks (sm.map (fun v => -v)) (-100) 10)

/-- `WorkoutAnalyzer.count_repetitions`: dispatch on the classified exercise;
any other label (in particular "unknown") yields 0 repetitions. -/
def count_repetitions (seq : LandmarkSeq) (exercise_type : String) : ℕ :=
  if exercise_type = "squat" then count_squat_reps seq
  else if exercise_type = "push_up" then count_pushup_reps seq
  else if exercise_type = "lunge" then count_lunge_reps seq
  else 0

/-- `np.arctan2 y x`, modelled by the argument of the complex number
`x + y i` (numpy and `Complex.arg` agree on `(0, 0) ↦ 0` and on the range). -/
def arctan2 (y x : ℝ) : ℝ := Complex.arg ⟨x, y⟩

/-- Squat rule: left knee x caves inward of both left hip x and left ankle x
by more than 0.02 (source lines 414–419; reads landmarks 23, 25, 27 only). -/
def squat_knee_cave (lm : Frame) : Prop := (lm 25).x < min ((lm 23).x) ((lm 27).x) - 0.02

/-- Squat rule: left knee x forward of left ankle x by more than 0.05
(reads landmarks 25 and 27 only). -/
def squat_knee_forward (lm : Frame) : Prop := (lm 25).x > (lm 27).x + 0.05

/-- Squat rule: torso orientation angle below 60° from horizontal. -/
def squat_back_lean (lm : Frame) : Prop :=
  |degrees (arctan2 (((lm 11).y + (lm 12).y) / 2 - ((lm 23).y + (lm 24).y) / 2)
    (((lm 11).x + (lm 12).x) / 2 - ((lm 23).x + (lm 24).x) / 2))| < 60

/-- Squat rule: mean hip height above mean knee height by more than 0.02
(y grows downward in image coordinates, so `hip_y < knee_y - 0.02`). -/
def squat_insufficient_depth (lm : Frame) : Prop :=
  ((lm 23).y + (lm 24).y) / 2 < ((lm 25).y + (lm 26).y) / 2 - 0.02

/-- Push-up rule: mean hip height sags below both shoulder and ankle level by
more than 0.03. -/
def pushup_hip_sag (lm : Frame) : Prop :=
  ((lm 23).y + (lm 24).y) / 2 > max (((lm 11).y + (lm 12).y) / 2) (((lm 27).y + (lm 28).y) / 2) + 0.03

/-- Push-up rule: mean hip height pikes above both shoulder and ankle level by
more than 0.03. -/
def pushup_hip_pike (lm : Frame) : Prop :=
  ((lm 23).y + (lm 24).y) / 2 < min (((lm 11).y + (lm 12).y) / 2) (((lm 27).y + (lm 28).y) / 2) - 0.03

/-- Push-up rule: partial range of motion — the left elbow angle (landmarks
11, 13, 15 only; the source computes `calculate_angle` on the left arm)
exceeds 110°. -/
def pushup_partial_rom (lm : Frame) : Prop := leftElbowAngle lm > 110

/-- Push-up rule: nose below shoulder level by more than 0.05. -/
def pushup_head_position (lm : Frame) : Prop :=
  (lm 0).y > ((lm 11).y + (lm 12).y) / 2 + 0.05

/-- Lunge rule: front (left) knee x forward of left ankle x by more than 0.05
(reads landmarks 25 and 27 only). -/
def lunge_knee_forward (lm : Frame) : Prop := (lm 25).x > (lm 27).x + 0.05

/-- Lunge rule: shoulder midpoint leans off the hip midpoint by more than
0.08 horizontally. -/
def lunge_torso_lean (lm : Frame) : Prop :=
  |((lm 11).x + (lm 12).x) / 2 - (((lm 23).x + (lm 24).x) / 2)| > 0.08

/-- Lunge rule: neither knee drops low enough (`min(front, back) > 0.7`). -/
def lunge_insufficient_depth (lm : Frame) : Prop := min ((lm 25).y) ((lm 26).y) > 0.7

/-- Number of valid frames of the sequence violating a per-frame rule — one
`xxx_frames` counter of the form-analysis loops. -/
def countFrames (seq : LandmarkSeq) (p : Frame → Prop) : ℕ :=
  (seq.filterMap id).countP (fun lm => decide (p lm))

/-- `WorkoutAnalyzer.analyze_squat_form`: each rule whose violation-frame
count exceeds its fraction of `len(landmarks_sequence)` appends its feedback
string (in source order) and subtracts its penalty from 10.0; a clean run
gets the affirmation string. -/
def analyze_squat_form (seq : LandmarkSeq) : List String × ℝ :=
  let total := (seq.length : ℝ)
  let fb :=
    (if (countFrames seq squat_knee_cave : ℝ) > total * 0.15 then
      ["Keep your knees aligned with your toes - avoid knee cave"] else [])
    ++ (if (countFrames seq squat_knee_forward : ℝ) > total * 0.2 then
      ["Keep your knees behind your toes"] else [])
    ++ (if (countFrames seq squat_back_lean : ℝ) > total * 0.25 then
      ["Keep your chest up and back straight"] else [])
    ++ (if (countFrames seq squat_insufficient_depth : ℝ) > total * 0.3 then
      ["Go deeper - hips should go below knee level"] else [])
  let score := 10.0
    - (if (countFrames seq squat_knee_cave : ℝ) > total * 0.15 then 2.5 else 0)
    - (if (countFrames seq squat_knee_forward : ℝ) > total * 0.2 then 1.5 else 0)
    - (if (countFrames seq squat_back_lean : ℝ) > total * 0.25 then 2.0 else 0)
    - (if (countFrames seq squat_insufficient_depth : ℝ) > total * 0.3 then 1.5 else 0)
  (if fb = [] then ["Excellent squat form! Keep it up!"] else fb, score)

/-- `WorkoutAnalyzer.analyze_pushup_form`. -/
def analyze_pushup_form (seq : LandmarkSeq) : List String × ℝ :=
  let total := (seq.length : ℝ)
  let fb :=
    (if (countFrames seq pushup_hip_sag : ℝ) > total * 0.2 then
      ["Keep your core tight - avoid hip sag"] else [])
    ++ (if (countFrames seq pushup_hip_pike : ℝ) > total * 0.2 then
      ["Keep your body straight - avoid piking your hips"] else [])
    ++ (if (countFrames seq pushup_partial_rom : ℝ) > total * 0.3 then
      ["Go lower - chest should nearly touch the ground"] else [])
    ++ (if (countFrames seq pushup_head_position : ℝ) > total * 0.25 then
      ["Keep your head in neutral position"] else [])
  let score := 10.0
    - (if (countFrames seq pushup_hip_sag : ℝ) > total * 0.2 then 2.5 else 0)
    - (if (countFrames seq pushup_hip_pike : ℝ) > total * 0.2 then 2.0 else 0)
    - (if (countFrames seq pushup_partial_rom : ℝ) > total * 0.3 then 2.0 else 0)
    - (if (countFrames seq pushup_head_position : ℝ) > total * 0.25 then 1.0 else 0)
  (if fb = [] then ["Perfect push-up form! Well done!"] else fb, score)

/-- `WorkoutAnalyzer.analyze_lunge_form`. -/
def analyze_lunge_form (seq : LandmarkSeq) : List String × ℝ :=
  let total := (seq.length : ℝ)
  let fb :=
    (if (countFrames seq lunge_knee_forward : ℝ) > total * 0.2 then
      ["Keep your front knee behind your toes"] else [])
    ++ (if (countFrames seq lunge_torso_lean : ℝ) > total * 0.25 then
      ["Keep your torso upright"] else [])
    ++ (if (countFrames seq lunge_insufficient_depth : ℝ) > total * 0.3 then
      ["Go deeper in your lunge"] else [])
  let score := 10.0
    - (if (countFrames seq lunge_knee_forward : ℝ) > total * 0.2 then 2.0 else 0)
    - (if (countFrames seq lunge_torso_lean : ℝ) > total * 0.25 then 1.5 else 0)
    - (if (countFrames seq lunge_insufficient_depth : ℝ) > total * 0.3 then 1.5 else 0)
  (if fb = [] then ["Great lunge form!"] else fb, score)

/-- `WorkoutAnalyzer.analyze_form`: dispatch on the exercise label (any other
label gets the neutral feedback and 5.0), then clamp the score to [0, 10]. -/
def analyze_form (seq : LandmarkSeq) (exercise_type : String) : List String × ℝ :=
  let fs :=
    if exercise_type = "squat" then analyze_squat_form seq
    else if exercise_type = "push_up" then analyze_pushup_form seq
    else if exercise_type = "lunge" then analyze_lunge_form seq
    else (["Exercise not recognized for detailed analysis"], 5.0)
  (fs.1, max 0.0 (min 10.0 fs.2))

/-- Python `round(x, 1)`.  `round` here is round-half-up where Python rounds
half to even; every score reaching this call is an exact multiple of 0.1
(10.0 minus sums of 1.0/1.5/2.0/2.5 penalties, clamped), so the two rounding
modes agree on all reachable values, and the bounds proved below hold for
either mode. -/
def round1 (x : ℝ) : ℝ := ((round (x * 10) : ℤ) : ℝ) / 10

/-- The analysis result record.  `analysisQuality` is absent (`none`) on the
no-pose and short-video paths, present otherwise. -/
structure AnalysisResult where
  exerciseName : String
  repCount : ℕ
  feedback : List String
  formScore : ℝ
  analysisQuality : Option String

/-- The analysis core of `WorkoutAnalyzer.analyze_video`, from the point where
the per-frame pose results have been collected: `landmarks_sequence` has one
entry (frame or sentinel) per frame read, so the source's `frame_count` equals
`seq.length`.  Video decoding, the `cap.isOpened` error record and the
top-level exception record are outside this model; this function is total. -/
def analyze_video (seq : LandmarkSeq) : AnalysisResult :=
  let valid := validFrames seq
  if valid.isEmpty then
    ⟨"unknown", 0, ["Could not detect pose in video"], 0.0, none⟩
  else if valid.length < 30 then
    ⟨"unknown", 0, ["Video too short for analysis"], 0.0, none⟩
  else
    let exercise_type := detect_exercise_type valid
    let rep_count := count_repetitions valid exercise_type
    let fs := analyze_form valid exercise_type
    ⟨exercise_type, rep_count, fs.1, round1 fs.2,
      some (if (valid.length : ℝ) / (seq.length : ℝ) > 0.8 then "high" else "medium")⟩

/-! ### Specification-side definitions

Each of the following follows the wording of the specification / claim it is
compared against, to be proved equal to (or distinguished from) the source
translation above. -/

/-- Squat confidence per the §4.4 table: 40 points for
`hip_movement > 0.2 ∧ knee_movement > 0.25`, 30 for `hip_movement > 0.3`,
30 for `knee_movement > 0.4`. -/
def squatPoints (seq : LandmarkSeq) : ℕ :=
  (if analyze_hip_movement seq > 0.2 ∧ analyze_knee_movement seq > 0.25 then 40 else 0)
  + (if analyze_hip_movement seq > 0.3 then 30 else 0)
  + (if analyze_knee_movement seq > 0.4 then 30 else 0)

/-- Push-up confidence per the §4.4 table: 40 for
`elbow_movement > 0.3 ∧ shoulder_movement > 0.15`, 35 when the horizontal
position holds, 25 for `elbow_movement > 0.4`. -/
def pushupPoints (seq : LandmarkSeq) : ℕ :=
  (if analyze_elbow_movement seq > 0.3 ∧ analyze_shoulder_movement seq > 0.15 then 40 else 0)
  + (if check_horizontal_body_position seq then 35 else 0)
  + (if analyze_elbow_movement seq > 0.4 then 25 else 0)

/-- Lunge confidence per the §4.4 table: 60 when asymmetric leg movement
holds, 40 for `hip_movement > 0.25 ∧ knee_movement > 0.3`. -/
def lungePoints (seq : LandmarkSeq) : ℕ :=
  (if detect_asymmetric_leg_movement seq then 60 else 0)
  + (if analyze_hip_movement seq > 0.25 ∧ analyze_knee_movement seq > 0.3 then 40 else 0)

/-- The §4.4 decision rule: take the maximum of the three totals, return
unknown below 50, otherwise the first of squat, push-up, lunge (in that fixed
order) whose total equals the maximum. -/
def classifierSpec (seq : LandmarkSeq) : String :=
  let m := max (squatPoints seq) (max (pushupPoints seq) (lungePoints seq))
  if m < 50 then "unknown"
  else if squatPoints seq = m then "squat"
  else if pushupPoints seq = m then "push_up"
  else "lunge"

/-- The §4.5 counting rule: on a canonical signal of at least 10 samples,
smooth with window `wl`, then `min(#peaks ≥ peakHeight, #valleys ≤
valleyFloor)` with minimum spacing `spacing` (valleys counted as peaks of the
negated signal); 0 on fewer than 10 samples. -/
def repCountSpec (sig : List ℝ) (peakHeight valleyFloor : ℝ) (spacing wl : ℕ) : ℕ :=
  if sig.length < 10 then 0
  else
    let sm := smooth_data sig wl
    min (countPeaks sm peakHeight spacing) (countPeaks (sm.map (fun v => -v)) (-valleyFloor) spacing)

/-- The canonical lunge signal per §4.5: the knee-angle series of the leg
with the larger angle range. -/
def lungeActiveSignal (seq : LandmarkSeq) : List ℝ :=
  if listMax (leftKneeSignal seq) - listMin (leftKneeSignal seq)
      > listMax (rightKneeSignal seq) - listMin (rightKneeSignal seq)
  then leftKneeSignal seq else rightKneeSignal seq

/-- The lunge repetition counter as claim C6 states it: identical to
`count_lunge_reps` except that the canonical signal is smoothed with window
length `min(7, sequence length)` instead of the default window 5. -/
def count_lunge_reps_min7 (seq : LandmarkSeq) : ℕ :=
  if (leftKneeSignal seq).length < 10 then 0
  else
    let sm := smooth_data (lungeActiveSignal seq) (min 7 (lungeActiveSignal seq).length)
    min (countPeaks sm 140 10) (countPeaks (sm.map (fun v => -v)) (-100) 10)

/-- Modelled from the spec (§4.3): the `elbow_movement` metric as claim C7
states it — the range of the smoothed per-frame *average* elbow angle (mean
of left and right elbow angle per frame) divided by 180, 0 with fewer than
two valid frames. -/
def analyze_elbow_movement_spec (seq : LandmarkSeq) : ℝ :=
  if (avgElbowSignal seq).length < 2 then 0
  else (listMax (smooth_data (avgElbowSignal seq) 5) - listMin (smooth_data (avgElbowSignal seq) 5)) / 180

/-- The §4.7 orchestrator contract: drop sentinels; empty → no-pose record;
fewer than 30 valid frames → short-video record; otherwise classifier →
repetition counter → form analyzer on the valid subsequence, quality "high"
exactly when `valid / total attempted > 0.8`, form score rounded to one
decimal. -/
def orchestratorSpec (seq : LandmarkSeq) : AnalysisResult :=
  let valid := validFrames seq
  if valid = [] then
    ⟨"unknown", 0, ["Could not detect pose in video"], 0.0, none⟩
  else if valid.length < 30 then
    ⟨"unknown", 0, ["Video too short for analysis"], 0.0, none⟩
  else
    ⟨detect_exercise_type valid,
      count_repetitions valid (detect_exercise_type valid),
      (analyze_form valid (detect_exercise_type valid)).1,
      round1 (analyze_form valid (detect_exercise_type valid)).2,
      some (if 0.8 < (valid.length : ℝ) / (seq.length : ℝ) then "high" else "medium")⟩

/-! ### Concrete inputs

Angles are realized by unit rays from the vertex: with `ba = (1, 0)` and
`bc` a unit vector, `calculate_angle` returns exactly the angle of `bc`
against the positive x-axis, so landmark placements below produce exact
0° / 90° / 180° joint angles. -/

/-- A frame whose left knee (hip 23 at `(1,0)`, knee 25 at the origin, ankle
27 at the unit vector `d`) has the angle of `d`, and whose right knee
(landmarks 24/26/28) is fixed at 90°.  All other landmarks sit at the
origin. -/
def lungeFrame (d : Landmark) : Frame := fun i =>
  if i = 23 then ⟨1, 0⟩
  else if i = 25 then ⟨0, 0⟩
  else if i = 27 then d
  else if i = 24 then ⟨11, 0⟩
  else if i = 26 then ⟨10, 0⟩
  else if i = 28 then ⟨10, 1⟩
  else ⟨0, 0⟩

/-- Unit direction for a 90° joint angle. -/
def dir90 : Landmark := ⟨0, 1⟩

/-- Unit direction for a 0° joint angle. -/
def dir0 : Landmark := ⟨1, 0⟩

/-- Unit direction for a 180° joint angle. -/
def dir180 : Landmark := ⟨-1, 0⟩

/-- 17 valid frames whose left-knee angle series is
`[90,90,90,90,90,90,90,0,90,180,90,90,90,90,90,90,90]` and whose right-knee
angle is constantly 90°.  The first and last seven samples are constant, so
the edge samples of both the window-5 and the window-7 smoothing agree
exactly with scipy's `mode='interp'` polynomial edge fit. -/
def lungeExample : LandmarkSeq :=
  [dir90, dir90, dir90, dir90, dir90, dir90, dir90, dir0, dir90, dir180,
   dir90, dir90, dir90, dir90, dir90, dir90, dir90].map (fun d => some (lungeFrame d))

/-- A frame whose left elbow (shoulder 11 at `(1,0)`, elbow 13 at the origin,
wrist 15 at unit vector `dl`) has the angle of `dl`, and whose right elbow
(shoulder 12 at `(11,0)`, elbow 14 at `(10,0)`, wrist 16 at `(10,0) + dr`)
has the angle of `dr`. -/
def elbowFrame (dl dr : Landmark) : Frame := fun i =>
  if i = 11 then ⟨1, 0⟩
  else if i = 13 then ⟨0, 0⟩
  else if i = 15 then dl
  else if i = 12 then ⟨11, 0⟩
  else if i = 14 then ⟨10, 0⟩
  else if i = 16 then ⟨10 + dr.x, dr.y⟩
  else ⟨0, 0⟩

/-- Two valid frames: the left elbow angle is 180° in both, the right elbow
angle is 180° then 90°.  The left-only series is constant while the
left/right average moves by 22.5°. -/
def elbowExample : LandmarkSeq :=
  [some (elbowFrame dir180 dir180), some (elbowFrame dir180 dir90)]

/-! ### Integer images of the peak machinery

Comparisons on `ℝ` are not decidable, so a concrete run of the peak counter
cannot be evaluated directly.  The peak machinery is purely order-based, and
every concrete smoothed signal below consists of rationals with a common
denominator `d`, so each definition that follows is the verbatim image of its
`ℝ` counterpart on `ℤ`; the `..._cast` lemmas later show that along the
order-embedding `t ↦ (t : ℝ) / d` the two agree, which lets concrete
instances be settled by `decide` on integers. -/

/-- Embed an integer series scaled by `1 / d` into the signal space. -/
def castDiv (z : List ℤ) (d : ℕ) : List ℝ := z.map (fun t : ℤ => (t : ℝ) / d)

/-- Embed scaled integer (position, height) pairs. -/
def castPairsDiv (l : List (ℕ × ℤ)) (d : ℕ) : List (ℕ × ℝ) :=
  l.map (fun pq : ℕ × ℤ => (pq.1, (pq.2 : ℝ) / d))

/-- ℤ image of `plateauEnd`. -/
def plateauEndZ (x : List ℤ) : ℕ → ℕ → ℤ → ℕ
  | 0, i, _ => i
  | fuel + 1, i, v => if i < x.length - 1 ∧ x.getD i 0 = v then plateauEndZ x fuel (i + 1) v else i

/-- ℤ image of `lmAux`. -/
def lmAuxZ (x : List ℤ) : ℕ → ℕ → List ℕ
  | 0, _ => []
  | fuel + 1, i =>
    if i + 1 < x.length then
      if x.getD (i - 1) 0 < x.getD i 0 then
        if x.getD (plateauEndZ x x.length (i + 1) (x.getD i 0)) 0 < x.getD i 0 then
          (i + (plateauEndZ x x.length (i + 1) (x.getD i 0) - 1)) / 2
            :: lmAuxZ x fuel (plateauEndZ x x.length (i + 1) (x.getD i 0) + 1)
        else lmAuxZ x fuel (i + 1)
      else lmAuxZ x fuel (i + 1)
    else []

/-- ℤ image of `localMaxima`. -/
def localMaximaZ (x : List ℤ) : List ℕ := lmAuxZ x x.length 1

/-- ℤ image of `argmaxAux`. -/
def argmaxAuxZ : List (ℕ × ℤ) → (ℕ × ℤ) → (ℕ × ℤ)
  | [], best => best
  | p :: ps, best => argmaxAuxZ ps (if best.2 < p.2 then p else best)

/-- ℤ image of `sbdAux`. -/
def sbdAuxZ (dist : ℕ) : ℕ → List (ℕ × ℤ) → ℕ
  | 0, _ => 0
  | _, [] => 0
  | fuel + 1, p :: ps =>
    1 + sbdAuxZ dist fuel
      ((p :: ps).filter (fun q => decide (q.1 ≠ (argmaxAuxZ ps p).1
        ∧ (dist ≤ (argmaxAuxZ ps p).1 - q.1 ∨ dist ≤ q.1 - (argmaxAuxZ ps p).1))))

/-- ℤ image of `countPeaks`. -/
def countPeaksZ (x : List ℤ) (height : ℤ) (dist : ℕ) : ℕ :=
  sbdAuxZ dist
    (((localMaximaZ x).map (fun p => (p, x.getD p 0))).filter (fun pv => decide (height ≤ pv.2))).length
    (((localMaximaZ x).map (fun p => (p, x.getD p 0))).filter (fun pv => decide (height ≤ pv.2)))

/-- A frame with every landmark at the origin. -/
def frameA : Frame := fun _ => ⟨0, 0⟩

/-- `frameA` with the right hip, right knee and right ankle (indices 24, 26,
28) moved — a change confined to the right side of the body. -/
def frameB : Frame := fun i =>
  if i = 24 then ⟨5, 5⟩ else if i = 26 then ⟨7, 7⟩ else if i = 28 then ⟨9, 9⟩ else ⟨0, 0⟩

/-! ### Geometry primitive (claims C1 and C9) -/

/-- Claim C1 (code bug evidence): on every zero-length ray — `A = B` or
`B = C` — `calculate_angle` returns the non-finite value (`none`, i.e. NaN),
not 0.0.  numpy's `0.0 / 0.0` emits a suppressed `RuntimeWarning` and
evaluates to NaN instead of raising, so the `except: return 0.0` handler
never runs. -/
theorem calculate_angle_zero_ray_nan (a b : ℝ × ℝ) :
    calculate_angle a a b = none ∧ calculate_angle a b b = none := by
  constructor <;> simp [calculate_angle, norm2, sub_self]

/-- Claim C9: for non-degenerate triples (`A ≠ B`, `C ≠ B`) the angle is a
finite value in [0, 180] degrees, and it is symmetric in the two rays:
`angle(A,B,C) = angle(C,B,A)`. -/
theorem calculate_angle_range_symm (a b c : ℝ × ℝ) (hab : a ≠ b) (hcb : c ≠ b) :
    (∃ θ, calculate_angle a b c = some θ ∧ 0 ≤ θ ∧ θ ≤ 180) ∧
      calculate_angle a b c = calculate_angle c b a := by
  have hsq : ∀ u v : ℝ × ℝ, u ≠ v → 0 < (u.1 - v.1) ^ 2 + (u.2 - v.2) ^ 2 := by
    intro u v huv
    rcases (by
      by_contra h
      push_neg at h
      exact huv (Prod.ext (sub_eq_zero.mp h.1) (sub_eq_zero.mp h.2)) :
        u.1 - v.1 ≠ 0 ∨ u.2 - v.2 ≠ 0) with h | h
    · nlinarith [sq_nonneg (u.2 - v.2), pow_pos (abs_pos.mpr h) 2, sq_abs (u.1 - v.1)]
    · nlinarith [sq_nonneg (u.1 - v.1), pow_pos (abs_pos.mpr h) 2, sq_abs (u.2 - v.2)]
  have h1 : 0 < norm2 (a.1 - b.1, a.2 - b.2) := Real.sqrt_pos.mpr (hsq a b hab)
  have h2 : 0 < norm2 (c.1 - b.1, c.2 - b.2) := Real.sqrt_pos.mpr (hsq c b hcb)
  have hden : norm2 (a.1 - b.1, a.2 - b.2) * norm2 (c.1 - b.1, c.2 - b.2) ≠ 0 :=
    (mul_pos h1 h2).ne'
  constructor
  · refine ⟨degrees (Real.arccos (clip1 (dotv (a.1 - b.1, a.2 - b.2) (c.1 - b.1, c.2 - b.2)
      / (norm2 (a.1 - b.1, a.2 - b.2) * norm2 (c.1 - b.1, c.2 - b.2))))), ?_, ?_, ?_⟩
    · simp only [calculate_angle]
      rw [if_neg hden]
    · have hnn := Real.arccos_nonneg (clip1 (dotv (a.1 - b.1, a.2 - b.2)
        (c.1 - b.1, c.2 - b.2) / (norm2 (a.1 - b.1, a.2 - b.2) * norm2 (c.1 - b.1, c.2 - b.2))))
      have hπ := Real.pi_pos
      rw [degrees]
      positivity
    · have hle := Real.arccos_le_pi (clip1 (dotv (a.1 - b.1, a.2 - b.2)
        (c.1 - b.1, c.2 - b.2) / (norm2 (a.1 - b.1, a.2 - b.2) * norm2 (c.1 - b.1, c.2 - b.2))))
      have hπ := Real.pi_pos
      rw [degrees, div_le_iff₀ hπ]
      nlinarith
  · have hdot : dotv (c.1 - b.1, c.2 - b.2) (a.1 - b.1, a.2 - b.2)
        = dotv (a.1 - b.1, a.2 - b.2) (c.1 - b.1, c.2 - b.2) := by
      simp only [dotv]
      ring
    simp only [calculate_angle]
    rw [hdot, mul_comm (norm2 (c.1 - b.1, c.2 - b.2)) (norm2 (a.1 - b.1, a.2 - b.2))]

/-- Witness for C9 at the concrete right-angle triple
`A = (1,0), B = (0,0), C = (0,1)`. -/
theorem calculate_angle_range_symm_witness :
    (∃ θ, calculate_angle (1, 0) (0, 0) (0, 1) = some θ ∧ 0 ≤ θ ∧ θ ≤ 180) ∧
      calculate_angle (1, 0) (0, 0) (0, 1) = calculate_angle (0, 1) (0, 0) (1, 0) :=
  calculate_angle_range_symm (1, 0) (0, 0) (0, 1)
    (by simp [Prod.ext_iff]) (by simp [Prod.ext_iff])

/-! ### Smoothing (claim C8) -/

/-- Claim C8: `smooth_data` always preserves the length of the series, and
returns the series unchanged whenever it is shorter than the window. -/
theorem smooth_data_length_and_short (data : List ℝ) (wl : ℕ) :
    (smooth_data data wl).length = data.length ∧
      (data.length < wl → smooth_data data wl = data) := by
  constructor
  · rw [smooth_data]
    split
    · rfl
    · simp [savgol_filter]
  · intro h
    rw [smooth_data, if_pos h]

/-- Witness for C8: a two-sample series against the default window 5. -/
theorem smooth_data_length_and_short_witness :
    ([(1 : ℝ), 2].length < 5) ∧ smooth_data [(1 : ℝ), 2] 5 = [1, 2] :=
  ⟨by norm_num, (smooth_data_length_and_short [(1 : ℝ), 2] 5).2 (by norm_num)⟩

/-! ### Form rules read only left-side landmarks (claim C10) -/

/-- Claim C10: the squat knee-cave and knee-forward rules, the lunge
front-knee rule and the push-up partial range-of-motion rule are functions
of the left-side landmarks alone (hip 23, knee 25, ankle 27 for the leg
rules; shoulder 11, elbow 13, wrist 15 for the arm rule): two frames that
agree there satisfy each rule identically, whatever their right-side
landmarks do, so a right-side-only violation never increments these
counters. -/
theorem form_rules_left_side_only (f g : Frame)
    (h23 : f 23 = g 23) (h25 : f 25 = g 25) (h27 : f 27 = g 27)
    (h11 : f 11 = g 11) (h13 : f 13 = g 13) (h15 : f 15 = g 15) :
    (squat_knee_cave f ↔ squat_knee_cave g) ∧
      (squat_knee_forward f ↔ squat_knee_forward g) ∧
      (lunge_knee_forward f ↔ lunge_knee_forward g) ∧
      (pushup_partial_rom f ↔ pushup_partial_rom g) := by
  unfold squat_knee_cave squat_knee_forward lunge_knee_forward pushup_partial_rom
    leftElbowAngle frameAngle
  rw [h23, h25, h27, h11, h13, h15]
  exact ⟨Iff.rfl, Iff.rfl, Iff.rfl, Iff.rfl⟩

/-- Witness for C10: `frameB` moves only right-side landmarks of `frameA`,
and each of the four rules agrees on the two frames. -/
theorem form_rules_left_side_only_witness :
    (squat_knee_cave frameA ↔ squat_knee_cave frameB) ∧
      (squat_knee_forward frameA ↔ squat_knee_forward frameB) ∧
      (lunge_knee_forward frameA ↔ lunge_knee_forward frameB) ∧
      (pushup_partial_rom frameA ↔ pushup_partial_rom frameB) :=
  form_rules_left_side_only frameA frameB rfl rfl rfl rfl rfl rfl

/-! ### Result invariants (claim C2) -/

/-- The `if not feedback: feedback.append(affirmation)` pattern of the form
analyzers always leaves a nonempty list. -/
theorem ite_nil_cons_ne_nil (fb : List String) (s : String) :
    (if fb = [] then [s] else fb) ≠ [] := by
  split
  · simp
  · next h => exact h

theorem analyze_squat_form_feedback_ne_nil (seq : LandmarkSeq) :
    (analyze_squat_form seq).1 ≠ [] := by
  unfold analyze_squat_form
  dsimp only
  exact ite_nil_cons_ne_nil _ _

theorem analyze_pushup_form_feedback_ne_nil (seq : LandmarkSeq) :
    (analyze_pushup_form seq).1 ≠ [] := by
  unfold analyze_pushup_form
  dsimp only
  exact ite_nil_cons_ne_nil _ _

theorem analyze_lunge_form_feedback_ne_nil (seq : LandmarkSeq) :
    (analyze_lunge_form seq).1 ≠ [] := by
  unfold analyze_lunge_form
  dsimp only
  exact ite_nil_cons_ne_nil _ _

/-- On every dispatch branch `analyze_form` returns nonempty feedback. -/
theorem analyze_form_feedback_ne_nil (seq : LandmarkSeq) (ty : String) :
    (analyze_form seq ty).1 ≠ [] := by
  unfold analyze_form
  dsimp only
  split_ifs
  · exact analyze_squat_form_feedback_ne_nil seq
  · exact analyze_pushup_form_feedback_ne_nil seq
  · exact analyze_lunge_form_feedback_ne_nil seq
  · simp

/-- The clamp in `analyze_form` pins the score into [0, 10]. -/
theorem analyze_form_score_bounds (seq : LandmarkSeq) (ty : String) :
    0 ≤ (analyze_form seq ty).2 ∧ (analyze_form seq ty).2 ≤ 10 := by
  unfold analyze_form
  dsimp only
  constructor
  · exact le_trans (by norm_num) (le_max_left (0.0 : ℝ) _)
  · exact max_le (by norm_num) (le_trans (min_le_left _ _) (by norm_num))

/-- Rounding to one decimal keeps a [0, 10] score inside [0, 10]. -/
theorem round1_bounds {x : ℝ} (h0 : 0 ≤ x) (h10 : x ≤ 10) :
    0 ≤ round1 x ∧ round1 x ≤ 10 := by
  have hr : round (x * 10) = ⌊x * 10 + 1 / 2⌋ := round_eq _
  constructor
  · rw [round1, hr]
    have hnn : (0 : ℤ) ≤ ⌊x * 10 + 1 / 2⌋ := Int.le_floor.mpr (by push_cast; linarith)
    have : (0 : ℝ) ≤ ((⌊x * 10 + 1 / 2⌋ : ℤ) : ℝ) := by exact_mod_cast hnn
    linarith
  · rw [round1, hr]
    have h1 : ((⌊x * 10 + 1 / 2⌋ : ℤ) : ℝ) ≤ x * 10 + 1 / 2 := Int.floor_le _
    have h2 : ⌊x * 10 + 1 / 2⌋ < 100 + 1 := by
      by_contra hc
      push_neg at hc
      have : ((100 + 1 : ℤ) : ℝ) ≤ ((⌊x * 10 + 1 / 2⌋ : ℤ) : ℝ) := by exact_mod_cast hc
      push_cast at this
      linarith
    have h3 : ((⌊x * 10 + 1 / 2⌋ : ℤ) : ℝ) ≤ 100 := by
      have := Int.lt_add_one_iff.mp h2
      exact_mod_cast this
    linarith

/-- Claim C2: on every path of the analysis the result satisfies
`repCount ≥ 0`, `formScore ∈ [0, 10]` and nonempty feedback.  The model is a
total function, so no fault crosses the boundary. -/
theorem analyze_video_invariants (seq : LandmarkSeq) :
    0 ≤ (analyze_video seq).repCount ∧
      0 ≤ (analyze_video seq).formScore ∧ (analyze_video seq).formScore ≤ 10 ∧
      (analyze_video seq).feedback ≠ [] := by
  unfold analyze_video
  dsimp only
  split
  · exact ⟨Nat.zero_le _, by norm_num, by norm_num, by simp⟩
  · split
    · exact ⟨Nat.zero_le _, by norm_num, by norm_num, by simp⟩
    · have hb := analyze_form_score_bounds (validFrames seq) (detect_exercise_type (validFrames seq))
      have hr := round1_bounds hb.1 hb.2
      exact ⟨Nat.zero_le _, hr.1, hr.2,
        analyze_form_feedback_ne_nil (validFrames seq) (detect_exercise_type (validFrames seq))⟩

/-! ### Orchestrator contract (claim C3) -/

/-- Claim C3: the orchestrator path equals the §4.7 contract — no-pose record
on an empty valid subsequence, short-video record below 30 valid frames,
otherwise classifier → counter → form analyzer with quality "high" exactly
when the valid fraction exceeds 0.8 and the form score rounded to one
decimal. -/
theorem analyze_video_matches_orchestrator (seq : LandmarkSeq) :
    analyze_video seq = orchestratorSpec seq := by
  unfold analyze_video orchestratorSpec
  simp only [List.isEmpty_iff, gt_iff_lt]
  split_ifs <;> rfl

/-! ### Classifier (claim C4) -/

/-- Claim C4: the classifier awards points exactly per the §4.4 table and
decides by maximum with the squat → push-up → lunge tie-break, returning
unknown below 50.  (The source's early return on the empty sequence agrees
with the table: every metric is 0 there, so the maximum is 0 < 50.) -/
theorem detect_exercise_type_matches_table (seq : LandmarkSeq) :
    detect_exercise_type seq = classifierSpec seq := by
  rcases eq_or_ne seq [] with h | h
  · subst h
    have h1 : analyze_hip_movement [] = 0 := rfl
    have h2 : analyze_knee_movement [] = 0 := rfl
    have h3 : analyze_shoulder_movement [] = 0 := rfl
    have h4 : analyze_elbow_movement [] = 0 := rfl
    have h5 : ¬ check_horizontal_body_position [] := by
      rw [check_horizontal_body_position]
      norm_num
    have h6 : ¬ detect_asymmetric_leg_movement [] := by
      rw [detect_asymmetric_leg_movement]
      norm_num [leftKneeSignal]
    rw [detect_exercise_type, classifierSpec, squatPoints, pushupPoints, lungePoints,
      h1, h2, h3, h4]
    norm_num [h5, h6]
  · rw [detect_exercise_type, classifierSpec, squatPoints, pushupPoints, lungePoints,
      if_neg (by simpa [List.isEmpty_iff] using h)]

/-! ### Repetition counter (claims C5 and C6) -/

theorem count_squat_eq (seq : LandmarkSeq) :
    count_squat_reps seq = repCountSpec (avgKneeSignal seq) 160 90 10 (min 7 (avgKneeSignal seq).length) := rfl

theorem count_pushup_eq (seq : LandmarkSeq) :
    count_pushup_reps seq = repCountSpec (avgElbowSignal seq) 160 70 8 (min 7 (avgElbowSignal seq).length) := rfl

theorem count_lunge_eq (seq : LandmarkSeq) :
    count_lunge_reps seq = repCountSpec (lungeActiveSignal seq) 140 100 10 5 := by
  have hlen : (lungeActiveSignal seq).length = (leftKneeSignal seq).length := by
    rw [lungeActiveSignal]
    split
    · rfl
    · simp [leftKneeSignal, rightKneeSignal]
  rw [count_lunge_reps, repCountSpec, hlen, lungeActiveSignal]

/-- Claim C5: per classified exercise the repetition count is
`min(#peaks, #valleys)` of the smoothed canonical signal with the per-exercise
height thresholds and spacings (squat 160/90/10, push-up 160/70/8, lunge
140/100/10), 0 below 10 valid frames, and 0 for any unclassified label
without running extrema detection. -/
theorem count_repetitions_parameters (seq : LandmarkSeq) (ty : String) :
    count_repetitions seq ty =
      if ty = "squat" then repCountSpec (avgKneeSignal seq) 160 90 10 (min 7 (avgKneeSignal seq).length)
      else if ty = "push_up" then repCountSpec (avgElbowSignal seq) 160 70 8 (min 7 (avgElbowSignal seq).length)
      else if ty = "lunge" then repCountSpec (lungeActiveSignal seq) 140 100 10 5
      else 0 := by
  rw [count_repetitions]
  split_ifs
  · exact count_squat_eq seq
  · exact count_pushup_eq seq
  · exact count_lunge_eq seq
  · rfl

/-- Claim C6 (amended): the squat and push-up counters smooth with window
`min(7, sequence length)`, but the lunge counter smooths its canonical signal
— the knee series of the leg with the larger angle range — with
`smooth_data`'s fixed default window 5. -/
theorem count_reps_smoothing_windows (seq : LandmarkSeq) :
    count_lunge_reps seq = repCountSpec (lungeActiveSignal seq) 140 100 10 5 ∧
      count_squat_reps seq = repCountSpec (avgKneeSignal seq) 160 90 10 (min 7 (avgKneeSignal seq).length) ∧
      count_pushup_reps seq = repCountSpec (avgElbowSignal seq) 160 70 8 (min 7 (avgElbowSignal seq).length) :=
  ⟨count_lunge_eq seq, count_squat_eq seq, count_pushup_eq seq⟩

/-! ### Concrete angle evaluations -/

/-- `calculate_angle` only depends on the two difference vectors. -/
theorem calculate_angle_sub (a b c : ℝ × ℝ) :
    calculate_angle a b c = calculate_angle (a.1 - b.1, a.2 - b.2) (0, 0) (c.1 - b.1, c.2 - b.2) := by
  simp [calculate_angle]

theorem angleVal_base0 : angleVal (1, 0) (0, 0) (1, 0) = 0 := by
  rw [angleVal, calculate_angle]
  norm_num [norm2, dotv, clip1, degrees, min_def, max_def, Real.sqrt_one, Real.arccos_one]

theorem angleVal_base90 : angleVal (1, 0) (0, 0) (0, 1) = 90 := by
  rw [angleVal, calculate_angle]
  norm_num [norm2, dotv, clip1, degrees, min_def, max_def, Real.sqrt_one, Real.arccos_zero]
  field_simp
  ring

theorem angleVal_base180 : angleVal (1, 0) (0, 0) (-1, 0) = 180 := by
  rw [angleVal, calculate_angle]
  norm_num [norm2, dotv, clip1, degrees, min_def, max_def, Real.sqrt_one, Real.arccos_neg_one]
  field_simp

theorem rightKneeAngle_lungeFrame (d : Landmark) : rightKneeAngle (lungeFrame d) = 90 := by
  have h : rightKneeAngle (lungeFrame d) = (calculate_angle (11, 0) (10, 0) (10, 1)).getD 0 := rfl
  rw [h, calculate_angle_sub]
  norm_num
  exact angleVal_base90

theorem leftElbowAngle_elbowFrame (dl dr : Landmark) :
    leftElbowAngle (elbowFrame dl dr) = angleVal (1, 0) (0, 0) (dl.x, dl.y) := rfl

theorem rightElbowAngle_elbowFrame (dl dr : Landmark) :
    rightElbowAngle (elbowFrame dl dr) = angleVal (1, 0) (0, 0) (dr.x, dr.y) := by
  have h : rightElbowAngle (elbowFrame dl dr)
      = (calculate_angle (11, 0) (10, 0) (10 + dr.x, dr.y)).getD 0 := rfl
  rw [h, calculate_angle_sub, angleVal, calculate_angle_sub]
  norm_num

/-! ### elbow_movement uses only the left arm (claim C7) -/

/-- Claim C7 (amended): `elbow_movement` is the range of the smoothed
per-frame *left* elbow angle — landmarks 11, 13, 15 only — divided by 180,
and 0 with fewer than two valid frames. -/
theorem analyze_elbow_movement_left_only (seq : LandmarkSeq) :
    analyze_elbow_movement seq =
      if (leftElbowSignal seq).length < 2 then 0
      else (listMax (smooth_data (leftElbowSignal seq) 5)
        - listMin (smooth_data (leftElbowSignal seq) 5)) / 180 := rfl

/-- Claim C7 (counterexample): on `elbowExample` — left elbow fixed at 180°,
right elbow moving from 180° to 90° — the source metric is 0 while the
claimed mean-of-both-elbows metric is 1/4. -/
theorem analyze_elbow_movement_counterexample :
    analyze_elbow_movement elbowExample = 0 ∧
      analyze_elbow_movement_spec elbowExample = 1 / 4 := by
  have hsig : leftElbowSignal elbowExample = [(180 : ℝ), 180] := by
    have h1 : leftElbowSignal elbowExample
        = [angleVal (1, 0) (0, 0) (-1, 0), angleVal (1, 0) (0, 0) (-1, 0)] := rfl
    rw [h1, angleVal_base180]
  have havg : avgElbowSignal elbowExample = [(180 : ℝ), 135] := by
    have h1 : avgElbowSignal elbowExample =
        [(leftElbowAngle (elbowFrame dir180 dir180) + rightElbowAngle (elbowFrame dir180 dir180)) / 2,
         (leftElbowAngle (elbowFrame dir180 dir90) + rightElbowAngle (elbowFrame dir180 dir90)) / 2] := rfl
    rw [h1, leftElbowAngle_elbowFrame, leftElbowAngle_elbowFrame,
      rightElbowAngle_elbowFrame, rightElbowAngle_elbowFrame]
    dsimp only [dir180, dir90]
    rw [angleVal_base180, angleVal_base90]
    norm_num
  constructor
  · rw [analyze_elbow_movement, hsig]
    norm_num [smooth_data, listMax, listMin]
  · rw [analyze_elbow_movement_spec, havg]
    norm_num [smooth_data, listMax, listMin, min_def, max_def]

/-! ### Transport of the peak machinery along `t ↦ (t : ℝ) / d` -/

theorem castDiv_length (z : List ℤ) (d : ℕ) : (castDiv z d).length = z.length := by
  rw [castDiv, List.length_map]

theorem castPairsDiv_length (l : List (ℕ × ℤ)) (d : ℕ) :
    (castPairsDiv l d).length = l.length := by
  rw [castPairsDiv, List.length_map]

theorem castDiv_getD (z : List ℤ) (d : ℕ) (i : ℕ) :
    (castDiv z d).getD i 0 = ((z.getD i 0 : ℤ) : ℝ) / d := by
  induction z generalizing i with
  | nil => simp [castDiv, List.getD_nil]
  | cons a l ih =>
    cases i with
    | zero => simp [castDiv, List.getD_cons_zero]
    | succ n => simpa [castDiv, List.getD_cons_succ] using ih n

theorem cast_div_lt_iff {d : ℕ} (hd : 0 < d) (a b : ℤ) :
    ((a : ℝ) / d < (b : ℝ) / d) ↔ a < b := by
  have hdR : (0 : ℝ) < d := by exact_mod_cast hd
  rw [div_lt_div_iff_of_pos_right hdR]
  exact Int.cast_lt

theorem cast_div_le_iff {d : ℕ} (hd : 0 < d) (a b : ℤ) :
    ((a : ℝ) / d ≤ (b : ℝ) / d) ↔ a ≤ b := by
  have hdR : (0 : ℝ) < d := by exact_mod_cast hd
  rw [div_le_div_iff_of_pos_right hdR]
  exact Int.cast_le

theorem cast_div_eq_iff {d : ℕ} (hd : 0 < d) (a b : ℤ) :
    ((a : ℝ) / d = (b : ℝ) / d) ↔ a = b := by
  have hdR : (0 : ℝ) < d := by exact_mod_cast hd
  constructor
  · intro h
    field_simp [hdR.ne'] at h
    exact_mod_cast h
  · intro h
    rw [h]

theorem plateauEnd_cast {d : ℕ} (hd : 0 < d) (z : List ℤ) :
    ∀ fuel i (v : ℤ), plateauEnd (castDiv z d) fuel i ((v : ℝ) / d) = plateauEndZ z fuel i v := by
  intro fuel
  induction fuel with
  | zero => intro i v; rfl
  | succ n ih =>
    intro i v
    have hc : (i < (castDiv z d).length - 1 ∧ (castDiv z d).getD i 0 = (v : ℝ) / d)
        ↔ (i < z.length - 1 ∧ z.getD i 0 = v) := by
      rw [castDiv_length, castDiv_getD, cast_div_eq_iff hd]
    simp only [plateauEnd, plateauEndZ]
    exact if_congr hc (ih (i + 1) v) rfl

theorem lmAux_cast {d : ℕ} (hd : 0 < d) (z : List ℤ) :
    ∀ fuel i, lmAux (castDiv z d) fuel i = lmAuxZ z fuel i := by
  intro fuel
  induction fuel with
  | zero => intro i; rfl
  | succ n ih =>
    intro i
    have h3 : plateauEnd (castDiv z d) (castDiv z d).length (i + 1) ((castDiv z d).getD i 0)
        = plateauEndZ z z.length (i + 1) (z.getD i 0) := by
      rw [castDiv_getD, castDiv_length, plateauEnd_cast hd]
    simp only [lmAux, lmAuxZ]
    refine if_congr (by rw [castDiv_length])
      (if_congr (by rw [castDiv_getD, castDiv_getD, cast_div_lt_iff hd])
        (if_congr ?_ ?_ (ih (i + 1))) (ih (i + 1))) rfl
    · rw [h3, castDiv_getD, castDiv_getD, cast_div_lt_iff hd]
    · rw [h3]
      exact congrArg _ (ih _)

theorem localMaxima_cast {d : ℕ} (hd : 0 < d) (z : List ℤ) :
    localMaxima (castDiv z d) = localMaximaZ z := by
  rw [localMaxima, localMaximaZ, castDiv_length, lmAux_cast hd]

theorem argmaxAux_cast {d : ℕ} (hd : 0 < d) :
    ∀ (l : List (ℕ × ℤ)) (q : ℕ × ℤ),
      argmaxAux (castPairsDiv l d) (q.1, (q.2 : ℝ) / d)
        = ((argmaxAuxZ l q).1, ((argmaxAuxZ l q).2 : ℝ) / d) := by
  intro l
  induction l with
  | nil => intro q; rfl
  | cons a t ih =>
    intro q
    rw [show castPairsDiv (a :: t) d = (a.1, (a.2 : ℝ) / d) :: castPairsDiv t d from rfl]
    simp only [argmaxAux, argmaxAuxZ]
    by_cases h : q.2 < a.2
    · rw [if_pos ((cast_div_lt_iff hd _ _).mpr h), if_pos h]
      exact ih a
    · rw [if_neg (fun hc => h ((cast_div_lt_iff hd _ _).mp hc)), if_neg h]
      exact ih q

theorem sbdAux_cast {d : ℕ} (hd : 0 < d) (dist : ℕ) :
    ∀ fuel (l : List (ℕ × ℤ)), sbdAux dist fuel (castPairsDiv l d) = sbdAuxZ dist fuel l := by
  intro fuel
  induction fuel with
  | zero =>
    intro l
    cases l with
    | nil => rfl
    | cons p ps =>
      rw [show castPairsDiv (p :: ps) d = (p.1, (p.2 : ℝ) / d) :: castPairsDiv ps d from rfl]
      rfl
  | succ n ih =>
    intro l
    cases l with
    | nil => rfl
    | cons p ps =>
      rw [show castPairsDiv (p :: ps) d = (p.1, (p.2 : ℝ) / d) :: castPairsDiv ps d from rfl]
      simp only [sbdAux, sbdAuxZ]
      congr 1
      have hbest : (argmaxAux (castPairsDiv ps d) (p.1, (p.2 : ℝ) / d)).1 = (argmaxAuxZ ps p).1 := by
        rw [argmaxAux_cast hd]
      simp only [hbest]
      rw [show ((p.1, (p.2 : ℝ) / d) :: castPairsDiv ps d) = castPairsDiv (p :: ps) d from rfl]
      rw [castPairsDiv, List.filter_map]
      exact ih _

theorem countPeaks_cast {d : ℕ} (hd : 0 < d) (z : List ℤ) (h : ℤ) (dist : ℕ) :
    countPeaks (castDiv z d) ((h : ℝ) / d) dist = countPeaksZ z h dist := by
  rw [countPeaks, countPeaksZ, localMaxima_cast hd]
  have hmap : (localMaximaZ z).map (fun p => (p, (castDiv z d).getD p 0))
      = castPairsDiv ((localMaximaZ z).map (fun p => (p, z.getD p 0))) d := by
    rw [castPairsDiv, List.map_map]
    exact List.map_congr_left (fun p _ => by dsimp only [Function.comp]; rw [castDiv_getD])
  rw [hmap]
  have hfil : (castPairsDiv ((localMaximaZ z).map (fun p => (p, z.getD p 0))) d).filter
        (fun pv => decide ((h : ℝ) / d ≤ pv.2))
      = castPairsDiv (((localMaximaZ z).map (fun p => (p, z.getD p 0))).filter
        (fun pv => decide (h ≤ pv.2))) d := by
    rw [castPairsDiv, List.filter_map, castPairsDiv]
    refine congrArg _ (List.filter_congr ?_)
    intro pv _
    dsimp only [Function.comp]
    exact decide_eq_decide.mpr (cast_div_le_iff hd _ _)
  rw [hfil, castPairsDiv_length, sbdAux_cast hd]

theorem castDiv_map_neg (z : List ℤ) (d : ℕ) :
    (castDiv z d).map (fun v => -v) = castDiv (z.map (fun v => -v)) d := by
  rw [castDiv, castDiv, List.map_map, List.map_map]
  exact List.map_congr_left (fun t _ => by simp [Function.comp, neg_div])

/-! ### Concrete evaluation of the lunge counter (claim C6) -/

theorem angleVal_dir90_eval : angleVal (1, 0) (0, 0) (dir90.x, dir90.y) = 90 := angleVal_base90

theorem angleVal_dir0_eval : angleVal (1, 0) (0, 0) (dir0.x, dir0.y) = 0 := angleVal_base0

theorem angleVal_dir180_eval : angleVal (1, 0) (0, 0) (dir180.x, dir180.y) = 180 := angleVal_base180

/-- The left-knee angle series of `lungeExample`:
two knee bends of depth 0° and 180° around a 90° baseline. -/
theorem lungeExample_left : leftKneeSignal lungeExample =
    [(90 : ℝ), 90, 90, 90, 90, 90, 90, 0, 90, 180, 90, 90, 90, 90, 90, 90, 90] := by
  rw [show leftKneeSignal lungeExample =
      [angleVal (1, 0) (0, 0) (dir90.x, dir90.y), angleVal (1, 0) (0, 0) (dir90.x, dir90.y),
       angleVal (1, 0) (0, 0) (dir90.x, dir90.y), angleVal (1, 0) (0, 0) (dir90.x, dir90.y),
       angleVal (1, 0) (0, 0) (dir90.x, dir90.y), angleVal (1, 0) (0, 0) (dir90.x, dir90.y),
       angleVal (1, 0) (0, 0) (dir90.x, dir90.y), angleVal (1, 0) (0, 0) (dir0.x, dir0.y),
       angleVal (1, 0) (0, 0) (dir90.x, dir90.y), angleVal (1, 0) (0, 0) (dir180.x, dir180.y),
       angleVal (1, 0) (0, 0) (dir90.x, dir90.y), angleVal (1, 0) (0, 0) (dir90.x, dir90.y),
       angleVal (1, 0) (0, 0) (dir90.x, dir90.y), angleVal (1, 0) (0, 0) (dir90.x, dir90.y),
       angleVal (1, 0) (0, 0) (dir90.x, dir90.y), angleVal (1, 0) (0, 0) (dir90.x, dir90.y),
       angleVal (1, 0) (0, 0) (dir90.x, dir90.y)] from rfl]
  rw [angleVal_dir90_eval, angleVal_dir0_eval, angleVal_dir180_eval]

/-- The right-knee angle of `lungeExample` is constantly 90°. -/
theorem lungeExample_right : rightKneeSignal lungeExample =
    [(90 : ℝ), 90, 90, 90, 90, 90, 90, 90, 90, 90, 90, 90, 90, 90, 90, 90, 90] := by
  rw [show rightKneeSignal lungeExample =
      [rightKneeAngle (lungeFrame dir90), rightKneeAngle (lungeFrame dir90),
       rightKneeAngle (lungeFrame dir90), rightKneeAngle (lungeFrame dir90),
       rightKneeAngle (lungeFrame dir90), rightKneeAngle (lungeFrame dir90),
       rightKneeAngle (lungeFrame dir90), rightKneeAngle (lungeFrame dir0),
       rightKneeAngle (lungeFrame dir90), rightKneeAngle (lungeFrame dir180),
       rightKneeAngle (lungeFrame dir90), rightKneeAngle (lungeFrame dir90),
       rightKneeAngle (lungeFrame dir90), rightKneeAngle (lungeFrame dir90),
       rightKneeAngle (lungeFrame dir90), rightKneeAngle (lungeFrame dir90),
       rightKneeAngle (lungeFrame dir90)] from rfl]
  simp only [rightKneeAngle_lungeFrame]

theorem lungeExample_left_max :
    listMax [(90 : ℝ), 90, 90, 90, 90, 90, 90, 0, 90, 180, 90, 90, 90, 90, 90, 90, 90] = 180 := by
  norm_num [listMax, List.foldl_cons, List.foldl_nil, max_def]

theorem lungeExample_left_min :
    listMin [(90 : ℝ), 90, 90, 90, 90, 90, 90, 0, 90, 180, 90, 90, 90, 90, 90, 90, 90] = 0 := by
  norm_num [listMin, List.foldl_cons, List.foldl_nil, min_def]

theorem lungeExample_right_max :
    listMax [(90 : ℝ), 90, 90, 90, 90, 90, 90, 90, 90, 90, 90, 90, 90, 90, 90, 90, 90] = 90 := by
  norm_num [listMax, List.foldl_cons, List.foldl_nil, max_def]

theorem lungeExample_right_min :
    listMin [(90 : ℝ), 90, 90, 90, 90, 90, 90, 90, 90, 90, 90, 90, 90, 90, 90, 90, 90] = 90 := by
  norm_num [listMin, List.foldl_cons, List.foldl_nil, min_def]

/-- Smoothing the canonical signal with the default window 5 (exact
Savitzky–Golay values, common denominator 7). -/
theorem lungeExample_sm5 :
    smooth_data [(90 : ℝ), 90, 90, 90, 90, 90, 90, 0, 90, 180, 90, 90, 90, 90, 90, 90, 90] 5
      = castDiv [630, 630, 630, 630, 630, 684, 414, 270, 630, 990, 846, 576, 630, 630, 630, 630, 630] 7 := by
  norm_num [smooth_data, savgol_filter, kernelFor, k5, dotWindow, castDiv, List.getD,
    List.range_succ]

/-- Smoothing the same signal with window `min(7, 17) = 7`. -/
theorem lungeExample_sm7 :
    smooth_data [(90 : ℝ), 90, 90, 90, 90, 90, 90, 0, 90, 180, 90, 90, 90, 90, 90, 90, 90] 7
      = castDiv [630, 630, 630, 630, 690, 540, 390, 510, 630, 750, 870, 720, 570, 630, 630, 630, 630] 7 := by
  norm_num [smooth_data, savgol_filter, kernelFor, k7, dotWindow, castDiv, List.getD,
    List.range_succ]

/-- Claim C6 (counterexample): on `lungeExample` the source lunge counter
(window 5) finds one repetition — the window-5 smoothing keeps the 180° spike
at 990/7 ≈ 141.4° ≥ 140° — while the counter the claim describes (window
`min(7, 17) = 7`) flattens it to 870/7 ≈ 124.3° < 140° and counts zero. -/
theorem count_lunge_window_counterexample :
    count_lunge_reps lungeExample = 1 ∧ count_lunge_reps_min7 lungeExample = 0 := by
  constructor
  · rw [count_lunge_reps]
    dsimp only
    rw [lungeExample_left, lungeExample_right, if_neg (by norm_num),
      lungeExample_left_max, lungeExample_left_min, lungeExample_right_max,
      lungeExample_right_min, if_pos (by norm_num : (180 : ℝ) - 0 > 90 - 90),
      lungeExample_sm5, castDiv_map_neg,
      show (140 : ℝ) = ((980 : ℤ) : ℝ) / ((7 : ℕ) : ℝ) from by norm_num,
      show (-100 : ℝ) = (((-700) : ℤ) : ℝ) / ((7 : ℕ) : ℝ) from by norm_num,
      countPeaks_cast (by norm_num), countPeaks_cast (by norm_num)]
    decide
  · rw [count_lunge_reps_min7, lungeActiveSignal]
    dsimp only
    rw [lungeExample_left, lungeExample_right, if_neg (by norm_num),
      lungeExample_left_max, lungeExample_left_min, lungeExample_right_max,
      lungeExample_right_min, if_pos (by norm_num : (180 : ℝ) - 0 > 90 - 90),
      show min 7 ([(90 : ℝ), 90, 90, 90, 90, 90, 90, 0, 90, 180, 90, 90, 90, 90, 90, 90,
        90] : List ℝ).length = 7 from rfl,
      lungeExample_sm7, castDiv_map_neg,
      show (140 : ℝ) = ((980 : ℤ) : ℝ) / ((7 : ℕ) : ℝ) from by norm_num,
      show (-100 : ℝ) = (((-700) : ℤ) : ℝ) / ((7 : ℕ) : ℝ) from by norm_num,
      countPeaks_cast (by norm_num), countPeaks_cast (by norm_num)]
    decide

end GymBot
